import Mathlib

/-!
Verification of the natural-language specification of a tutorial repository
(recommendation-model training, celebrity recognition, Kubeflow pipeline
definition, and a Kubernetes job manifest) against its source files.

The definitions below are a shallow embedding of the repository code:
  - the celebrity-recognition notebook (image and video sections, the
    drawBoundingBoxes helper, the poll-until-done loop, the per-frame
    celebrity display),
  - the training-submission notebook (metrics_definitions regexes,
    hyperparameters, the linear cell order, uses of stored identifiers),
  - the Kubeflow pipeline notebook (name resolution inside the decorated
    mnist_classification function),
  - the bert-csi-fsx.yaml Kubernetes Pod manifest.

Machine integers do not occur; timestamps are modelled as Int and the
floating-point Confidence and bounding-box fields as Rat (every IEEE double
is a rational, and the code only compares and multiplies these values, so
the embedding is faithful on representable inputs).  Fallible SDK calls are
modelled with Except over an explicit service oracle.
-/

/- ================================================================
   Shared data model for the Rekognition celebrity-recognition notebook
   ================================================================ -/

/-- Face bounding box as returned by Rekognition: the Left, Top, Width and
Height ratios of the JSON BoundingBox object. -/
structure BoundingBox where
  left : Rat
  top : Rat
  width : Rat
  height : Rat
deriving DecidableEq, Repr

/-- One element of the Celebrities list of a GetCelebrityRecognition
response: the Timestamp in milliseconds, and, when the entry carries a
Celebrity object, its Name and Confidence. -/
structure VideoCelebrity where
  timestamp : Int
  celebrity : Option (String × Rat)
deriving DecidableEq, Repr

/-- Response of one get_celebrity_recognition call: the JobStatus field and
the Celebrities list. -/
structure GetCelebrityRecognitionResponse where
  jobStatus : String
  celebrities : List VideoCelebrity
deriving DecidableEq, Repr

/-- Arguments of one get_celebrity_recognition call made by the notebook:
the JobId and SortBy keyword arguments. -/
structure RekognitionPollCall where
  jobId : String
  sortBy : String
deriving DecidableEq, Repr

/- ================================================================
   C1: the video wait loop of the celebrity notebook

   Source (celebrity notebook, wait cell):
     getCelebrityRecognition = rekognition.get_celebrity_recognition(
         JobId=celebrityJobId, SortBy=TIMESTAMP)
     while getCelebrityRecognition JobStatus == IN_PROGRESS:
         time.sleep(5); print(.)
         getCelebrityRecognition = rekognition.get_celebrity_recognition(
             JobId=celebrityJobId, SortBy=TIMESTAMP)

   The n-th element of `responses` is the response the service returns to
   the n-th call.  The function returns the list of calls made, the list of
   sleep durations (seconds) performed between consecutive calls, and the
   response held when the loop exits.  `none` models a trace on which the
   service answered IN_PROGRESS to every provided response, so the loop is
   still running.
   ================================================================ -/

/-- Embedding of the wait cell: recursion over the trace of service
responses. -/
def pollCelebrityRecognition (celebrityJobId : String) :
    List GetCelebrityRecognitionResponse →
    Option (List RekognitionPollCall × List Nat × GetCelebrityRecognitionResponse)
  | [] => none
  | r :: rest =>
    if r.jobStatus = "IN_PROGRESS" then
      match pollCelebrityRecognition celebrityJobId rest with
      | none => none
      | some (calls, sleeps, final) =>
        some (⟨celebrityJobId, "TIMESTAMP"⟩ :: calls, 5 :: sleeps, final)
    else
      some ([⟨celebrityJobId, "TIMESTAMP"⟩], [], r)

/-- Modelled from the claim wording: the index and value of the first
response whose JobStatus field is no longer IN_PROGRESS. -/
def firstNonInProgress :
    List GetCelebrityRecognitionResponse → Option (Nat × GetCelebrityRecognitionResponse)
  | [] => none
  | r :: rest =>
    if r.jobStatus = "IN_PROGRESS" then
      (firstNonInProgress rest).map (fun p => (p.1 + 1, p.2))
    else
      some (0, r)

/-- Modelled from the claim wording: the loop terminates exactly at the
first response whose JobStatus is not IN_PROGRESS, having made one call
with the stored JobId (and SortBy TIMESTAMP) per consumed response and
having slept a constant 5 seconds between consecutive polls, with no other
scheduling, backoff or cancellation. -/
def pollSpecCelebrity (celebrityJobId : String)
    (responses : List GetCelebrityRecognitionResponse) :
    Option (List RekognitionPollCall × List Nat × GetCelebrityRecognitionResponse) :=
  (firstNonInProgress responses).map (fun p =>
    (List.replicate (p.1 + 1) ⟨celebrityJobId, "TIMESTAMP"⟩,
     List.replicate p.1 5, p.2))

/- ================================================================
   C8: per-video celebrity display

   Source (celebrity notebook, display cell):
     theCelebs is a dict; for celebrity in getCelebrityRecognition
     Celebrities: if the Celebrity key is present and its Confidence is
     strictly above 95 the Name is inserted once (insertion-ordered);
     strOverall then lists the collected names.
   ================================================================ -/

/-- Embedding of the collection loop of the display cell, with the
accumulated dict keys made explicit (Python dicts are insertion-ordered, so
the keys of theCelebs form a duplicate-free list in first-seen order). -/
def theCelebsFrom (acc : List String) :
    List VideoCelebrity → List String
  | [] => acc
  | e :: rest =>
    match e.celebrity with
    | none => theCelebsFrom acc rest
    | some (cname, cconfidence) =>
      if 95 < cconfidence then
        theCelebsFrom (if cname ∈ acc then acc else acc ++ [cname]) rest
      else
        theCelebsFrom acc rest

/-- Names collected into theCelebs for one Celebrities list. -/
def theCelebs (entries : List VideoCelebrity) : List String :=
  theCelebsFrom [] entries

/-- The strOverall string built by the display cell (each collected name is
rendered once via the format string Name: ...<br>). -/
def strOverall (entries : List VideoCelebrity) : String :=
  "Celebrities in the overall video:<br>=======================================<br>" ++
    String.join ((theCelebs entries).map (fun n => "Name: " ++ n ++ "<br>"))

/- ================================================================
   C9 (and part of C3): the drawBoundingBoxes helper

   Source (celebrity notebook):
     colors = ((255,255,255),(255,255,255),(76,182,252),(52,194,123))
     imageLocation = tempFolder + os.path.basename(sourceImage)
     s3.download_file(bucketName, sourceImage, imageLocation)
     col = 0; maxcol = len(colors); line = 3
     for box in boxes: draw text and three rectangles with colors[col];
       col = (col+1) % maxcol
     imageFormat = PNG; if sourceImage.lower() ends with jpg or jpeg
       then JPEG; bbImage.save(imageLocation, format=imageFormat)
   ================================================================ -/

/-- The fixed four-element colour tuple of drawBoundingBoxes. -/
def colors : List (Nat × Nat × Nat) :=
  [(255, 255, 255), (255, 255, 255), (76, 182, 252), (52, 194, 123)]

/-- Python int() applied to a rational: truncation toward zero. -/
def pyInt (q : Rat) : Int :=
  if 0 ≤ q then q.floor else q.ceil

/-- One drawing primitive issued by drawBoundingBoxes. -/
inductive DrawOp where
  | text (pos : Int × Int) (label : String) (color : Nat × Nat × Nat)
  | rectangle (corners : Int × Int × Int × Int) (color : Nat × Nat × Nat)
deriving DecidableEq, Repr

/-- The drawing operations of one loop iteration: the label text and the
three nested outline rectangles (line = 3), all in the given colour. -/
def drawOpsForBox (color : Nat × Nat × Nat) (box : String × BoundingBox)
    (width height : Nat) : List DrawOp :=
  let x1 := pyInt (box.2.left * width)
  let y1 := pyInt (box.2.top * height)
  let x2 := pyInt (box.2.left * width + box.2.width * width)
  let y2 := pyInt (box.2.top * height + box.2.height * height)
  DrawOp.text (x1, y1) box.1 color ::
    (List.range 3).map (fun l =>
      DrawOp.rectangle (x1 - l, y1 - l, x2 + l, y2 + l) color)

/-- Rendering record of one box: the colour the loop selected for it and
the operations drawn with that colour. -/
structure BoxRender where
  color : Nat × Nat × Nat
  ops : List DrawOp
deriving DecidableEq, Repr

/-- The box loop of drawBoundingBoxes: col starts at the given counter and
advances by (col+1) % 4 after every box. -/
def drawLoop (width height : Nat) (col : Nat) :
    List (String × BoundingBox) → List BoxRender
  | [] => []
  | b :: rest =>
    ⟨colors.getD col (0, 0, 0), drawOpsForBox (colors.getD col (0, 0, 0)) b width height⟩ ::
      drawLoop width height ((col + 1) % 4) rest

/-- The temporary download folder of the notebook. -/
def tempFolder : String := "m1tmp/"

/-- The os.path.basename of a slash-separated path: everything after the
last slash. -/
def pathBasename (path : String) : String :=
  String.mk ((path.toList.reverse.takeWhile (fun c => c ≠ '/')).reverse)

/-- Python str.lower, character by character (agrees with Python on the
ASCII paths the notebook uses). -/
def strToLower (s : String) : String :=
  String.mk (s.toList.map Char.toLower)

/-- Python str.endswith: the suffix test on the underlying characters. -/
def strEndsWith (s suffix : String) : Bool :=
  suffix.toList.isSuffixOf s.toList

/-- The format-selection logic of drawBoundingBoxes. -/
def imageFormatFor (sourceImage : String) : String :=
  let ext := strToLower sourceImage
  if strEndsWith ext "jpg" || strEndsWith ext "jpeg" then "JPEG" else "PNG"

/-- Result of a drawBoundingBoxes call: where the source image is
downloaded to, the rendering trace of the box loop, and the path and format
of the save. -/
structure DrawResult where
  downloadTo : String
  renders : List BoxRender
  savedPath : String
  savedFormat : String
deriving DecidableEq, Repr

/-- Embedding of drawBoundingBoxes, given the pixel size of the downloaded
image (the code reads it from the opened file). -/
def drawBoundingBoxes (sourceImage : String) (boxes : List (String × BoundingBox))
    (width height : Nat) : DrawResult :=
  let imageLocation := tempFolder ++ pathBasename sourceImage
  { downloadTo := imageLocation
    renders := drawLoop width height 0 boxes
    savedPath := imageLocation
    savedFormat := imageFormatFor sourceImage }

/- ================================================================
   C3: error propagation in the image-recognition section

   Source (celebrity notebook, image section):
     imageName = content-moderation/media/GrandTourjc.png
     recognizeCelebritiesResponse = rekognition.recognize_celebrities(
         Image=S3Object(Bucket=bucketName, Name=imageName))
     boxes = [(Name, Face.BoundingBox) for each CelebrityFaces entry]
     drawBoundingBoxes(imageName, boxes)   # downloads the file first

   No cell wraps any of these calls in a handler, so an SDK exception
   aborts the script at the failing statement with the script variables as
   they were before that statement.
   ================================================================ -/

/-- One recognised celebrity of a RecognizeCelebrities response: the Name
and the Face BoundingBox (the only fields the notebook reads). -/
structure CelebrityFace where
  name : String
  boundingBox : BoundingBox
deriving DecidableEq, Repr

/-- RecognizeCelebrities response: CelebrityFaces and UnrecognizedFaces. -/
structure RecognizeCelebritiesResponse where
  celebrityFaces : List CelebrityFace
  unrecognizedFaces : List BoundingBox
deriving DecidableEq, Repr

/-- An error raised by the remote SDK (botocore error class and message),
for example InvalidS3ObjectException. -/
structure SdkError where
  code : String
  message : String
deriving DecidableEq, Repr

/-- Oracle for the remote SDK calls the image section makes: the
RecognizeCelebrities operation (bucket, key) and the S3 download
(bucket, key, local path). -/
structure RekognitionService where
  recognizeCelebrities : String → String → Except SdkError RecognizeCelebritiesResponse
  downloadFile : String → String → String → Except SdkError Unit

/-- Variables of the image section of the celebrity script. -/
structure ImageScriptState where
  imageName : String
  response : Option RecognizeCelebritiesResponse
  boxes : List (String × BoundingBox)
deriving DecidableEq, Repr

/-- State before any cell of the image section runs. -/
def initialImageState : ImageScriptState :=
  { imageName := "", response := none, boxes := [] }

/-- Embedding of the image-section cells in order, against a service
oracle.  The first component is the log of SDK operations attempted; on an
SDK error the result carries the raised error unchanged together with the
script state at the moment of the raise. -/
def runImageSection (svc : RekognitionService) (bucketName : String) :
    List String × Except (SdkError × ImageScriptState) ImageScriptState :=
  let st1 := { initialImageState with imageName := "content-moderation/media/GrandTourjc.png" }
  match svc.recognizeCelebrities bucketName st1.imageName with
  | .error e => (["RecognizeCelebrities"], .error (e, st1))
  | .ok r =>
    let st2 := { st1 with response := some r }
    let st3 := { st2 with boxes := r.celebrityFaces.map (fun c => (c.name, c.boundingBox)) }
    match svc.downloadFile bucketName st3.imageName (tempFolder ++ pathBasename st3.imageName) with
    | .error e => (["RecognizeCelebrities", "S3.DownloadFile"], .error (e, st3))
    | .ok _ => (["RecognizeCelebrities", "S3.DownloadFile"], .ok st3)

/- ================================================================
   C2: name resolution inside the decorated mnist_classification function

   Source (pipeline notebook).  A name referenced inside the function body
   resolves to a parameter, to a local assigned by an earlier statement of
   the body, or to a module-level global; a reference to none of these
   raises NameError when kfp.compiler.Compiler().compile evaluates the
   function.  (No name in this body is read before its own assignment, so
   the scan below coincides with CPython runtime name resolution.)
   ================================================================ -/

/-- A Python statement of the pipeline function body: an assignment with
the names its right-hand side references in source order, or a bare
expression statement with its referenced names. -/
inductive PyStmt where
  | assign (lhs : String) (refs : List String)
  | expr (refs : List String)
deriving DecidableEq, Repr

/-- Names a statement references. -/
def PyStmt.refs : PyStmt → List String
  | .assign _ rs => rs
  | .expr rs => rs

/-- Name a statement binds, if any. -/
def PyStmt.binds : PyStmt → Option String
  | .assign lhs _ => some lhs
  | .expr _ => none

/-- Parameters of mnist_classification. -/
def mnistClassificationParams : List String := ["role_arn", "bucket_name"]

/-- Module-level names assigned in the pipeline notebook before the
compile cell runs (imports, configuration assignments, component loaders
and the three helper functions). -/
def pipelineModuleGlobals : List String :=
  ["boto3", "AWS_REGION_AS_SLIST", "AWS_REGION", "AWS_ACCOUNT_ID", "S3_BUCKET",
   "kfp", "components", "dsl", "use_aws_secret",
   "sagemaker_hpo_op", "sagemaker_process_op", "sagemaker_train_op",
   "sagemaker_model_op", "sagemaker_deploy_op",
   "SAGEMAKER_ROLE_ARN", "S3_PIPELINE_PATH", "AWS_ECR_REGISTRY",
   "processing_code_s3_uri", "training_code_s3_uri",
   "processing_input", "processing_output", "training_input",
   "mnist_classification"]

/-- The statements of the mnist_classification body in source order, each
with the names it references in source order (string literals and
attribute/keyword names are not references). -/
def mnistClassificationBody : List PyStmt :=
  [ .assign "region" [],
    .assign "processing_instance_type" [],
    .assign "processing_instance_count" [],
    .assign "training_instance_type" [],
    .assign "training_instance_count" [],
    .assign "deploy_instance_type" [],
    .assign "deploy_instance_count" [],
    .assign "processing_image" [],
    .assign "training_image" [],
    .assign "process"
      ["sagemaker_process_op", "role_arn", "region", "processing_image",
       "instance_type", "processing_input", "processing_input",
       "processing_code_s3_uri", "processing_output", "bucket_name",
       "processing_output", "bucket_name", "processing_output", "bucket_name"],
    .assign "train_channels" ["training_input", "bucket_name"],
    .assign "train_output_location" ["bucket_name"],
    .assign "training"
      ["sagemaker_train_op", "region", "training_image", "train_channels",
       "instance_type", "train_output_location", "role_arn", "process"],
    .assign "create_model"
      ["sagemaker_model_op", "region", "training", "serving_image",
       "training", "role_arn"],
    .expr ["sagemaker_deploy_op", "region", "create_model", "deploy_instance_type"] ]

/-- Scan the body in order with the environment of bound names; return the
first referenced name that is bound nowhere (the name whose lookup raises
NameError), if any. -/
def firstUnboundIn (env : List String) : List PyStmt → Option String
  | [] => none
  | s :: rest =>
    match s.refs.find? (fun r => !env.contains r) with
    | some r => some r
    | none =>
      match s.binds with
      | some lhs => firstUnboundIn (env ++ [lhs]) rest
      | none => firstUnboundIn env rest

/-- Every unbound reference of the body (scanning past errors, for
reporting). -/
def unboundRefsIn (env : List String) : List PyStmt → List String
  | [] => []
  | s :: rest =>
    s.refs.filter (fun r => !env.contains r) ++
      (match s.binds with
       | some lhs => unboundRefsIn (env ++ [lhs]) rest
       | none => unboundRefsIn env rest)

/-- The first name whose lookup fails when mnist_classification is
evaluated by the pipeline compiler. -/
def mnistClassificationFirstUnbound : Option String :=
  firstUnboundIn (mnistClassificationParams ++ pipelineModuleGlobals) mnistClassificationBody

/-- All unbound references of the mnist_classification body. -/
def mnistClassificationUnboundRefs : List String :=
  unboundRefsIn (mnistClassificationParams ++ pipelineModuleGlobals) mnistClassificationBody

/- ================================================================
   C4: uses of stored persistent-entity identifiers in the
   training-submission notebook

   Each entry transcribes one use of a stored identifier (training-job
   name, bucket, experiment name, trial name) in the notebook, in cell
   order, tagged with what the use is: display/formatting, an argument of
   a subsequent service call, or a write to the IPython store.
   ================================================================ -/

/-- Kind of a use of a stored identifier. -/
inductive UseKind where
  | display
  | serviceCall
  | storeWrite
deriving DecidableEq, Repr

/-- One use of a stored identifier in the training notebook. -/
structure IdentifierUse where
  identifier : String
  site : String
  kind : UseKind
deriving DecidableEq, Repr

/-- All uses of the stored identifiers in the training-submission
notebook, in cell order. -/
def storedIdentifierUses : List IdentifierUse :=
  [ ⟨"recommender_experiment_name", "print Experiment name", .display⟩,
    ⟨"recommender_experiment_name", "Trial.create experiment_name argument", .serviceCall⟩,
    ⟨"trial_name", "print Trial name", .display⟩,
    ⟨"recommender_experiment_name", "ExperimentName of experiment_config passed to estimator.fit", .serviceCall⟩,
    ⟨"trial_name", "TrialName of experiment_config passed to estimator.fit", .serviceCall⟩,
    ⟨"recommender_training_job_name", "print Training Job Name", .display⟩,
    ⟨"recommender_training_job_name", "HTML link to the SageMaker training-job console", .display⟩,
    ⟨"recommender_training_job_name", "HTML link to the CloudWatch log stream", .display⟩,
    ⟨"bucket", "HTML link to the S3 console", .display⟩,
    ⟨"recommender_training_job_name", "HTML link to the S3 console", .display⟩,
    ⟨"bucket", "S3 object path of the aws s3 cp download of model.tar.gz", .serviceCall⟩,
    ⟨"recommender_training_job_name", "S3 object path of the aws s3 cp download of model.tar.gz", .serviceCall⟩,
    ⟨"recommender_experiment_name", "ExperimentAnalytics experiment_name argument", .serviceCall⟩,
    ⟨"recommender_training_job_name", "write to the IPython store", .storeWrite⟩ ]

/- ================================================================
   C7: linear order of the training-submission notebook
   ================================================================ -/

/-- The externally visible steps of the training-submission notebook. -/
inductive TrainStep where
  | pipInstall
  | initSession
  | configTrainInput
  | defineMetrics
  | setHyperparameters
  | createEstimator
  | createExperiment
  | createTrial
  | buildExperimentConfig
  | submitTrainingJob
  | readJobName
  | displayConsoleLinks
  | waitForCompletion
  | downloadModelArtifacts
  | extractModelArchive
  | inspectSavedModel
  | samplePrediction
  | showLineage
  | storeJobName
deriving DecidableEq, Repr

/-- Cell order of the training-submission notebook: estimator.fit is the
submitTrainingJob step, estimator.latest_training_job.wait the
waitForCompletion step, and the aws s3 cp of model.tar.gz the
downloadModelArtifacts step. -/
def trainingNotebookSteps : List TrainStep :=
  [ .pipInstall, .initSession, .configTrainInput, .defineMetrics,
    .setHyperparameters, .createEstimator, .createExperiment, .createTrial,
    .buildExperimentConfig, .submitTrainingJob, .readJobName,
    .displayConsoleLinks, .waitForCompletion, .downloadModelArtifacts,
    .extractModelArchive, .inspectSavedModel, .samplePrediction,
    .showLineage, .storeJobName ]

/- ================================================================
   C10: metrics_definitions regexes on the sample log line
   ================================================================ -/

/-- The metrics_definitions list of the training notebook: Name and Regex
of each entry. -/
def metricsDefinitions : List (String × String) :=
  [ ("root_mean_squared_error", "root_mean_squared_error: ([0-9\\.]+)"),
    ("top_10_categorical_accuracy", "factorized_top_k/top_10_categorical_accuracy: ([0-9\\.]+)"),
    ("top_50_categorical_accuracy", "factorized_top_k/top_50_categorical_accuracy: ([0-9\\.]+)"),
    ("top_100_categorical_accuracy", "factorized_top_k/top_100_categorical_accuracy: ([0-9\\.]+)") ]

/-- The sample training log line given in the notebook markdown. -/
def sampleLogLine : String :=
  "499/500 [=====>..] - ETA: 3s - root_mean_squared_error: 1.1198 - factorized_top_k/top_10_categorical_accuracy: 0.481 - factorized_top_k/top_50_categorical_accuracy: 0.607 - factorized_top_k/top_100_categorical_accuracy: 0.885"

/-- A character matched by the regex character class of the capture
group. -/
def isNumChar (c : Char) : Bool := c.isDigit || c = '.'

/-- The trailing capture group shared by all four regexes, as characters:
an opening parenthesis, the class of digits and (escaped) dot, a plus, and
a closing parenthesis. -/
def captureSuffix : List Char :=
  ['(', '[', '0', '-', '9', '\\', '.', ']', '+', ')']

/-- Python re.search for a pattern of the form literal ++ capture group
over the class of digits and dot: at the leftmost position where the
literal occurs followed by at least one class character, capture the
maximal (greedy) run of class characters. -/
def searchCapture (lit : List Char) : List Char → Option (List Char)
  | [] => none
  | s :: rest =>
    if lit.isPrefixOf (s :: rest) then
      let run := ((s :: rest).drop lit.length).takeWhile isNumChar
      if run.isEmpty then searchCapture lit rest else some run
    else
      searchCapture lit rest

/-- Apply one metrics_definitions regex to a log line: the capture of the
single group of the first match, if any. -/
def applyMetricRegex (regex line : String) : Option String :=
  let cs := regex.toList
  (searchCapture (cs.take (cs.length - 10)) line.toList).map (fun r => String.mk r)

/- ================================================================
   C5: noninterference between the five scripts

   Channels are the named external locations a script programmatically
   reads or writes: S3 prefixes, the tensorflow-datasets source, the
   IPython store database, the per-script local working directory, and the
   FSx volume of the manifest.  The lists below are transcribed from the
   source of each script.  Locations written only by the remote platform
   (for example the model.tar.gz the training service stores under the
   job name) appear as reads of the script that fetches them.
   ================================================================ -/

/-- One of the five scripts, with the channels it reads and writes. -/
structure RepoScript where
  name : String
  reads : List String
  writes : List String
deriving DecidableEq, Repr

/-- The training-submission notebook. -/
def trainingSubmissionScript : RepoScript :=
  { name := "06_Train_Multitask_Recommendations_ScriptMode"
    reads :=
      ["s3:sagemaker-us-east-1-835319576252/tensorflow_datasets/train/",
       "local:/root/workshop/02_usecases/sagemaker_recommendations/src/",
       "s3:default-bucket/recommender-training-job-name/output/model.tar.gz"]
    writes :=
      ["ipystore:recommender_training_job_name",
       "local:02_usecases/wip/sagemaker_recommendations/model.tar.gz",
       "local:02_usecases/wip/sagemaker_recommendations/model/"] }

/-- The feature-experimentation notebook (runs locally; reads only the
MovieLens datasets through tensorflow-datasets). -/
def contextFeaturesScript : RepoScript :=
  { name := "05_Context_Features"
    reads := ["tfds:movie_lens/100k-ratings", "tfds:movie_lens/100k-movies"]
    writes := [] }

/-- The image/video celebrity-recognition notebook. -/
def celebrityRecognitionScript : RepoScript :=
  { name := "celebrity_recognition_notebook"
    reads :=
      ["s3:default-bucket/content-moderation/media/GrandTourjc.png",
       "s3:default-bucket/content-moderation/media/GrandTour720.mp4",
       "s3:default-bucket/content-moderation/media/serverless-bytes.png"]
    writes := ["local:unnamed-celebrity-notebook/m1tmp/"] }

/-- The Kubeflow pipeline-definition notebook. -/
def kubeflowPipelineScript : RepoScript :=
  { name := "kubeflow_pipeline_notebook"
    reads :=
      ["s3:kubeflow-pipeline-data/mnist_kmeans_example/",
       "local:12_pipeline/kubeflow/kmeans_preprocessing.py",
       "local:12_pipeline/kubeflow/code/",
       "http:deeplearning.net/data/mnist/mnist.pkl.gz"]
    writes :=
      ["s3:S3_BUCKET/mnist_kmeans_example/",
       "s3:S3_BUCKET/processing_code/kmeans_preprocessing.py",
       "s3:S3_BUCKET/training_code/sourcedir.tar.gz",
       "local:12_pipeline/kubeflow/sourcedir.tar.gz",
       "local:12_pipeline/kubeflow/mnist-classification-pipeline.zip",
       "local:12_pipeline/kubeflow/mnist.pkl.gz"] }

/-- The static bert-csi-fsx Pod manifest (the container it describes reads
its inputs from and writes its outputs to the mounted FSx volume). -/
def bertJobManifest : RepoScript :=
  { name := "bert-csi-fsx.yaml"
    reads := ["fsx:/opt/ml/input/", "fsx:/opt/ml/code/train.py"]
    writes := ["fsx:/opt/ml/model/", "fsx:/opt/ml/output/"] }

/-- The five scripts of the repository. -/
def repoScripts : List RepoScript :=
  [trainingSubmissionScript, contextFeaturesScript, celebrityRecognitionScript,
   kubeflowPipelineScript, bertJobManifest]

/-- What a script observes of the external world: the values at the
channels it reads (its behaviour is a fixed function of these, since all
its other inputs are its own literals). -/
def observes (s : RepoScript) (world : String → Option String) : List (Option String) :=
  s.reads.map world

/- ================================================================
   C6: the bert-csi-fsx.yaml Pod manifest
   ================================================================ -/

/-- An environment variable entry of the manifest. -/
structure EnvVar where
  name : String
  value : String
deriving DecidableEq, Repr

/-- The single container of the manifest. -/
structure K8sContainer where
  name : String
  command : List String
  image : String
  imagePullPolicy : String
  env : List EnvVar
  privileged : Bool
  volumeMounts : List (String × String)
deriving DecidableEq, Repr

/-- A Pod manifest: kind, metadata.name, volumes (name, claimName),
containers and restartPolicy. -/
structure K8sPod where
  kind : String
  metadataName : String
  volumes : List (String × String)
  containers : List K8sContainer
  restartPolicy : String
deriving DecidableEq, Repr

/-- The container of bert-csi-fsx.yaml, transcribed field by field. -/
def bertContainer : K8sContainer :=
  { name := "bert"
    command :=
      ["python", "/opt/ml/code/train.py",
       "--train_steps_per_epoch=1",
       "--epochs=1",
       "--learning_rate=0.00001",
       "--epsilon=0.00000001",
       "--train_batch_size=36",
       "--validation_batch_size=18",
       "--test_batch_size=18",
       "--train_steps_per_epoch=1",
       "--validation_steps=1",
       "--test_steps=1",
       "--use_xla=True",
       "--use_amp=False",
       "--max_seq_length=64",
       "--freeze_bert_layer=True",
       "--enable_sagemaker_debugger=False",
       "--enable_checkpointing=False",
       "--enable_tensorboard=False",
       "--run_validation=True",
       "--run_test=False",
       "--run_sample_predictions=False"]
    image := "763104351884.dkr.ecr.us-west-2.amazonaws.com/tensorflow-training:2.1.0-cpu-py36-ubuntu18.04"
    imagePullPolicy := "Always"
    env :=
      [⟨"SM_TRAINING_ENV", "\x7b\"is_master\":true\x7d"⟩,
       ⟨"SAGEMAKER_JOB_NAME", "tf-bert-training-eks"⟩,
       ⟨"SM_CURRENT_HOST", "localhost"⟩,
       ⟨"SM_NUM_GPUS", "0"⟩,
       ⟨"SM_HOSTS", "\x7b\"hosts\":\"localhost\"\x7d"⟩,
       ⟨"SM_MODEL_DIR", "/opt/ml/model/"⟩,
       ⟨"SM_OUTPUT_DIR", "/opt/ml/output/"⟩,
       ⟨"SM_OUTPUT_DATA_DIR", "/opt/ml/output/data/"⟩,
       ⟨"SM_CHANNEL_TRAIN", "/opt/ml/input/data/train"⟩,
       ⟨"SM_CHANNEL_VALIDATION", "/opt/ml/input/data/validation"⟩,
       ⟨"SM_CHANNEL_TEST", "/opt/ml/input/data/test"⟩,
       ⟨"HDF5_USE_FILE_LOCKING", "FALSE"⟩]
    privileged := true
    volumeMounts := [("/opt/ml/", "fsx-opt-ml")] }

/-- The bert-csi-fsx.yaml manifest: a single Pod document. -/
def bertCsiFsxPod : K8sPod :=
  { kind := "Pod"
    metadataName := "bert-csi-fsx"
    volumes := [("fsx-opt-ml", "fsx-claim")]
    containers := [bertContainer]
    restartPolicy := "Never" }

/-- A scalar hyperparameter value of the training notebook. -/
inductive PyScalar where
  | int (n : Int)
  | float (q : Rat)
  | str (s : String)
  | bool (b : Bool)
deriving DecidableEq, Repr

/-- The hyperparameters dictionary the training-submission notebook passes
to the managed training service. -/
def notebookHyperparameters : List (String × PyScalar) :=
  [ ("epochs", .int 10),
    ("learning_rate", .float (1 / 2)),
    ("dataset_variant", .str "100k"),
    ("embedding_dimension", .int 32),
    ("enable_tensorboard", .bool true) ]

/-- Name of a command-line flag of the form --name=value: the characters
between the double dash and the first equals sign. -/
def flagName (s : String) : Option String :=
  match s.toList with
  | '-' :: '-' :: rest => some (String.mk (rest.takeWhile (fun c => c ≠ '=')))
  | _ => none

/-- The hyperparameter flags of the container command (everything after
python /opt/ml/code/train.py), as flag names. -/
def podFlagNames : List String :=
  (bertContainer.command.drop 2).filterMap flagName

/-- Occurrences of a hyperparameter name among the container command-line
flags and environment variable names. -/
def hyperparameterOccurrences (n : String) : Nat :=
  podFlagNames.count n + (bertContainer.env.map EnvVar.name).count n

/-- The C6 claim as stated: a single Pod with a single container running
python /opt/ml/code/train.py, restartPolicy Never, and every hyperparameter
the notebook submits re-expressed exactly once among the container flags
and environment variables. -/
def c6ClaimStatement : Prop :=
  bertCsiFsxPod.kind = "Pod" ∧
  bertCsiFsxPod.containers = [bertContainer] ∧
  bertContainer.command.take 2 = ["python", "/opt/ml/code/train.py"] ∧
  bertCsiFsxPod.restartPolicy = "Never" ∧
  (∀ hp ∈ notebookHyperparameters, hyperparameterOccurrences hp.1 = 1) ∧
  (∀ f ∈ podFlagNames, podFlagNames.count f = 1)

/- ================================================================
   Theorems
   ================================================================ -/

/-- C1: the video celebrity-recognition wait is exactly the claimed poll
loop: over any trace of service responses it makes one
get_celebrity_recognition call with the stored JobId (SortBy TIMESTAMP)
per response, terminates exactly at the first response whose JobStatus is
no longer IN_PROGRESS, and sleeps a constant 5 seconds between consecutive
polls, with no other scheduling, backoff or cancellation. -/
theorem c1_video_poll_loop (celebrityJobId : String)
    (responses : List GetCelebrityRecognitionResponse) :
    pollCelebrityRecognition celebrityJobId responses =
      pollSpecCelebrity celebrityJobId responses := by
  induction responses with
  | nil => rfl
  | cons r rest ih =>
    by_cases h : r.jobStatus = "IN_PROGRESS"
    · cases hfi : firstNonInProgress rest with
      | none =>
        have hrest : pollCelebrityRecognition celebrityJobId rest = none := by
          rw [ih]; simp [pollSpecCelebrity, hfi]
        simp [pollCelebrityRecognition, pollSpecCelebrity, firstNonInProgress,
          h, hfi, hrest]
      | some p =>
        simp [pollCelebrityRecognition, pollSpecCelebrity, firstNonInProgress,
          h, hfi, ih, List.replicate_succ]
    · simp [pollCelebrityRecognition, pollSpecCelebrity, firstNonInProgress, h]

/-- C2: the mnist_classification body is not a well-formed function graph:
evaluating it resolves names left to right and the first reference bound
neither by a parameter, nor by an earlier assignment of the body, nor at
module level is instance_type (in the sagemaker_process_op call), so
CPython raises NameError there; serving_image (in the sagemaker_model_op
call) is unbound as well, and the compile cell therefore cannot serialize
the pipeline. -/
theorem c2_mnist_classification_unbound_names :
    mnistClassificationFirstUnbound = some "instance_type" ∧
      mnistClassificationUnboundRefs = ["instance_type", "instance_type", "serving_image"] := by
  constructor <;> rfl

/-- C7: in the training-submission notebook the training job is submitted
(estimator.fit) strictly before the script waits for completion
(latest_training_job.wait), which is strictly before the model artifacts
are downloaded (aws s3 cp of model.tar.gz); each of the three steps occurs
exactly once. -/
theorem c7_training_steps_linear_order :
    trainingNotebookSteps.indexOf TrainStep.submitTrainingJob <
        trainingNotebookSteps.indexOf TrainStep.waitForCompletion ∧
      trainingNotebookSteps.indexOf TrainStep.waitForCompletion <
        trainingNotebookSteps.indexOf TrainStep.downloadModelArtifacts ∧
      trainingNotebookSteps.count TrainStep.submitTrainingJob = 1 ∧
      trainingNotebookSteps.count TrainStep.waitForCompletion = 1 ∧
      trainingNotebookSteps.count TrainStep.downloadModelArtifacts = 1 := by
  decide

/-- C10: every metrics_definitions entry ends in the single capture group
over digits and dot, and applied (re.search, leftmost match, greedy
capture) to the sample log line of the notebook each regex captures
exactly the advertised value: 1.1198, 0.481, 0.607 and 0.885. -/
theorem c10_metric_regexes_capture_advertised_values :
    (∀ m ∈ metricsDefinitions,
        (m.2.toList).drop (m.2.toList.length - 10) = captureSuffix) ∧
      metricsDefinitions.map (fun m => (m.1, applyMetricRegex m.2 sampleLogLine)) =
        [("root_mean_squared_error", some "1.1198"),
         ("top_10_categorical_accuracy", some "0.481"),
         ("top_50_categorical_accuracy", some "0.607"),
         ("top_100_categorical_accuracy", some "0.885")] := by
  constructor
  · decide
  · rfl

/-- C4 counterexample: the claim that every stored identifier is used only
for display is false on the training notebook: among the transcribed uses
is the aws s3 cp download of model.tar.gz, whose S3 object path is built
from the stored recommender_training_job_name, a service call rather than
display. -/
theorem c4_counterexample_job_name_service_call :
    (⟨"recommender_training_job_name",
      "S3 object path of the aws s3 cp download of model.tar.gz",
      UseKind.serviceCall⟩ : IdentifierUse) ∈ storedIdentifierUses ∧
      ¬ (∀ u ∈ storedIdentifierUses, u.kind = UseKind.display) := by
  decide

/-- C4 amended: the stored identifiers are used for display except for an
explicit list of uses that feed subsequent service calls or the IPython
store: the experiment name in Trial.create, in the experiment_config of
estimator.fit and in ExperimentAnalytics; the trial name in the
experiment_config of estimator.fit; the bucket and the training-job name
in the S3 object path of the aws s3 cp that downloads model.tar.gz; and
the training-job name written to the IPython store. -/
theorem c4_non_display_uses_exactly :
    storedIdentifierUses.filter (fun u => u.kind != UseKind.display) =
      [ ⟨"recommender_experiment_name", "Trial.create experiment_name argument", .serviceCall⟩,
        ⟨"recommender_experiment_name", "ExperimentName of experiment_config passed to estimator.fit", .serviceCall⟩,
        ⟨"trial_name", "TrialName of experiment_config passed to estimator.fit", .serviceCall⟩,
        ⟨"bucket", "S3 object path of the aws s3 cp download of model.tar.gz", .serviceCall⟩,
        ⟨"recommender_training_job_name", "S3 object path of the aws s3 cp download of model.tar.gz", .serviceCall⟩,
        ⟨"recommender_experiment_name", "ExperimentAnalytics experiment_name argument", .serviceCall⟩,
        ⟨"recommender_training_job_name", "write to the IPython store", .storeWrite⟩ ] := by
  rfl

/-- C6 counterexample: the claim is false as stated, because the
hyperparameters of the manifest are not a one-to-one re-expression of the
ones the notebook submits: dataset_variant is submitted by the notebook
but occurs in no flag and no environment variable of the container, and
the flag name train_steps_per_epoch occurs twice in the command. -/
theorem c6_counterexample_hyperparameters :
    ¬ c6ClaimStatement := by
  intro h
  have h5 := h.2.2.2.2.1 ("dataset_variant", PyScalar.str "100k") (by decide)
  revert h5
  decide

/-- C6 amended: the manifest is a single Pod with exactly one container
running python /opt/ml/code/train.py and restartPolicy Never, and its
hyperparameters are expressed as command-line flags and environment
variables; but the hyperparameter set differs from the one the notebook
submits (dataset_variant and embedding_dimension occur nowhere; only the
names epochs, learning_rate and enable_tensorboard reappear, once each),
and the flag name train_steps_per_epoch appears twice in the command while
every other flag name appears once. -/
theorem c6_manifest_shape_and_hyperparameters :
    bertCsiFsxPod.kind = "Pod" ∧
      bertCsiFsxPod.containers = [bertContainer] ∧
      bertContainer.command.take 2 = ["python", "/opt/ml/code/train.py"] ∧
      bertCsiFsxPod.restartPolicy = "Never" ∧
      hyperparameterOccurrences "dataset_variant" = 0 ∧
      hyperparameterOccurrences "embedding_dimension" = 0 ∧
      hyperparameterOccurrences "epochs" = 1 ∧
      hyperparameterOccurrences "learning_rate" = 1 ∧
      hyperparameterOccurrences "enable_tensorboard" = 1 ∧
      podFlagNames.count "train_steps_per_epoch" = 2 ∧
      (∀ f ∈ podFlagNames, f ≠ "train_steps_per_epoch" → podFlagNames.count f = 1) := by
  decide

/-- C3: when the RecognizeCelebrities SDK call fails, the raised error
propagates to the caller unchanged: the run attempts the operation exactly
once (no retry, no backoff), the resulting error is the SDK error itself
(no translation), and the script state is exactly the state from before
the failed call (only imageName assigned; no response, no boxes). -/
theorem c3_sdk_error_propagates (svc : RekognitionService) (bucketName : String)
    (e : SdkError)
    (h : svc.recognizeCelebrities bucketName "content-moderation/media/GrandTourjc.png" = .error e) :
    runImageSection svc bucketName =
      (["RecognizeCelebrities"],
       .error (e, { imageName := "content-moderation/media/GrandTourjc.png",
                    response := none, boxes := [] })) := by
  simp [runImageSection, initialImageState, h]

/-- C3 witness: a service whose RecognizeCelebrities call raises
InvalidS3ObjectException, as in the recorded notebook output. -/
theorem c3_sdk_error_propagates_witness :
    runImageSection
        ⟨fun _ _ => .error ⟨"InvalidS3ObjectException", "Unable to get object metadata from S3"⟩,
         fun _ _ _ => .ok ()⟩ "sagemaker-us-east-1-835319576252" =
      (["RecognizeCelebrities"],
       .error (⟨"InvalidS3ObjectException", "Unable to get object metadata from S3"⟩,
               { imageName := "content-moderation/media/GrandTourjc.png",
                 response := none, boxes := [] })) :=
  c3_sdk_error_propagates _ _ _ rfl

/-- Helper for C5: across every pair of distinct scripts, no channel read
by one is written by the other. -/
theorem repoScripts_read_write_disjoint :
    ∀ a ∈ repoScripts, ∀ b ∈ repoScripts, a.name ≠ b.name →
      ∀ c ∈ b.reads, c ∉ a.writes := by
  decide

/-- C5: two-run noninterference between any two distinct scripts of the
repository: if two external worlds agree outside the channels one script
writes, the other script observes exactly the same values, so its
behaviour is independent of whether and how the first script executed. -/
theorem c5_scripts_noninterfere (a b : RepoScript)
    (ha : a ∈ repoScripts) (hb : b ∈ repoScripts) (hne : a.name ≠ b.name)
    (w w' : String → Option String)
    (hagree : ∀ c, c ∉ a.writes → w c = w' c) :
    observes b w = observes b w' := by
  unfold observes
  refine List.map_congr_left ?_
  intro c hc
  exact hagree c (repoScripts_read_write_disjoint a ha b hb hne c hc)

/-- C5 witness: the celebrity notebook observes the same world whether or
not the training notebook performed its writes. -/
theorem c5_scripts_noninterfere_witness :
    observes celebrityRecognitionScript (fun _ => none) =
      observes celebrityRecognitionScript
        (fun c => if c ∈ trainingSubmissionScript.writes then some "model" else none) :=
  c5_scripts_noninterfere trainingSubmissionScript celebrityRecognitionScript
    (by decide) (by decide) (by decide) _ _
    (fun _ hc => (if_neg hc).symm)

/-- Helper for C8: the collection loop preserves duplicate-freeness of the
accumulated names. -/
theorem theCelebsFrom_nodup (es : List VideoCelebrity) (acc : List String)
    (h : acc.Nodup) : (theCelebsFrom acc es).Nodup := by
  induction es generalizing acc with
  | nil => simpa [theCelebsFrom]
  | cons e rest ih =>
    cases hc : e.celebrity with
    | none => simpa [theCelebsFrom, hc] using ih acc h
    | some p =>
      obtain ⟨cname, conf⟩ := p
      by_cases h95 : (95 : Rat) < conf
      · by_cases hm : cname ∈ acc
        · simpa [theCelebsFrom, hc, h95, hm] using ih acc h
        · have hnodup : (acc ++ [cname]).Nodup := by
            simp [List.nodup_append, h, hm]
          simpa [theCelebsFrom, hc, h95, hm] using ih (acc ++ [cname]) hnodup
      · simpa [theCelebsFrom, hc, h95] using ih acc h

/-- Helper for C8: membership in the collected names is membership in the
accumulator or a detection with Confidence strictly above 95. -/
theorem theCelebsFrom_mem (es : List VideoCelebrity) (acc : List String) (n : String) :
    n ∈ theCelebsFrom acc es ↔
      n ∈ acc ∨ ∃ e ∈ es, ∃ c : Rat, e.celebrity = some (n, c) ∧ 95 < c := by
  induction es generalizing acc with
  | nil => simp [theCelebsFrom]
  | cons e rest ih =>
    rw [List.exists_mem_cons_iff]
    cases hc : e.celebrity with
    | none =>
      have hred : theCelebsFrom acc (e :: rest) = theCelebsFrom acc rest := by
        simp [theCelebsFrom, hc]
      rw [hred, ih]
      simp [hc]
    | some p =>
      obtain ⟨cname, conf⟩ := p
      have hdet : (∃ c : Rat, (some (cname, conf) : Option (String × Rat)) = some (n, c) ∧ 95 < c) ↔
          (n = cname ∧ 95 < conf) := by
        constructor
        · rintro ⟨c, hcc, hgt⟩
          obtain ⟨h1, h2⟩ : cname = n ∧ conf = c := by simpa using hcc
          exact ⟨h1.symm, h2 ▸ hgt⟩
        · rintro ⟨rfl, hgt⟩
          exact ⟨conf, rfl, hgt⟩
      rw [hdet]
      by_cases h95 : (95 : Rat) < conf
      · by_cases hm : cname ∈ acc
        · have hred : theCelebsFrom acc (e :: rest) = theCelebsFrom acc rest := by
            simp [theCelebsFrom, hc, h95, hm]
          rw [hred, ih]
          constructor
          · rintro (hn | hre)
            · exact Or.inl hn
            · exact Or.inr (Or.inr hre)
          · rintro (hn | ⟨rfl, _⟩ | hre)
            · exact Or.inl hn
            · exact Or.inl hm
            · exact Or.inr hre
        · have hred : theCelebsFrom acc (e :: rest) = theCelebsFrom (acc ++ [cname]) rest := by
            simp [theCelebsFrom, hc, h95, hm]
          rw [hred, ih]
          simp only [List.mem_append, List.mem_singleton]
          constructor
          · rintro ((hn | rfl) | hre)
            · exact Or.inl hn
            · exact Or.inr (Or.inl ⟨rfl, h95⟩)
            · exact Or.inr (Or.inr hre)
          · rintro (hn | ⟨rfl, _⟩ | hre)
            · exact Or.inl (Or.inl hn)
            · exact Or.inl (Or.inr rfl)
            · exact Or.inr hre
      · have hred : theCelebsFrom acc (e :: rest) = theCelebsFrom acc rest := by
          simp [theCelebsFrom, hc, h95]
        rw [hred, ih]
        constructor
        · rintro (hn | hre)
          · exact Or.inl hn
          · exact Or.inr (Or.inr hre)
        · rintro (hn | ⟨rfl, hgt⟩ | hre)
          · exact Or.inl hn
          · exact absurd hgt h95
          · exact Or.inr hre

/-- C8: in the overall-video display, every celebrity name appears at most
once among the collected names, and a name is collected if and only if
some detection of the Celebrities list carries that name with a Confidence
strictly greater than 95. -/
theorem c8_overall_video_names (entries : List VideoCelebrity) (n : String) :
    (theCelebs entries).count n ≤ 1 ∧
      (n ∈ theCelebs entries ↔
        ∃ e ∈ entries, ∃ c : Rat, e.celebrity = some (n, c) ∧ 95 < c) := by
  constructor
  · exact List.nodup_iff_count_le_one.mp
      (theCelebsFrom_nodup entries [] List.nodup_nil) n
  · simpa using theCelebsFrom_mem entries [] n

/-- C8 witness: instantiation on a concrete Celebrities list with a
repeated high-confidence detection and a low-confidence one. -/
theorem c8_overall_video_names_witness :
    (theCelebs
        [⟨100, some ("Jeremy Clarkson", 99)⟩,
         ⟨200, some ("Jeremy Clarkson", 98)⟩,
         ⟨300, some ("Richard Hammond", 50)⟩]).count "Jeremy Clarkson" ≤ 1 ∧
      ("Jeremy Clarkson" ∈ theCelebs
          [⟨100, some ("Jeremy Clarkson", 99)⟩,
           ⟨200, some ("Jeremy Clarkson", 98)⟩,
           ⟨300, some ("Richard Hammond", 50)⟩] ↔
        ∃ e ∈ ([⟨100, some ("Jeremy Clarkson", 99)⟩,
                ⟨200, some ("Jeremy Clarkson", 98)⟩,
                ⟨300, some ("Richard Hammond", 50)⟩] : List VideoCelebrity),
          ∃ c : Rat, e.celebrity = some ("Jeremy Clarkson", c) ∧ 95 < c) :=
  c8_overall_video_names _ "Jeremy Clarkson"

/-- Helper for C9: the colour the box loop selects cycles through the
four-element tuple, starting at the given counter. -/
theorem drawLoop_color_cycle (width height : Nat)
    (boxes : List (String × BoundingBox)) :
    ∀ col, col < 4 → ∀ i r, (drawLoop width height col boxes)[i]? = some r →
      r.color = colors.getD ((col + i) % 4) (0, 0, 0) := by
  induction boxes with
  | nil =>
    intro col _ i r hr
    simp [drawLoop] at hr
  | cons b rest ih =>
    intro col hcol i r hr
    cases i with
    | zero =>
      simp only [drawLoop, List.getElem?_cons_zero, Option.some.injEq] at hr
      rw [← hr]
      simp [Nat.mod_eq_of_lt hcol]
    | succ j =>
      simp only [drawLoop, List.getElem?_cons_succ] at hr
      have := ih ((col + 1) % 4) (Nat.mod_lt _ (by norm_num)) j r hr
      rw [this]
      congr 1
      rw [Nat.mod_add_mod]
      omega

/-- C9: drawBoundingBoxes saves in JPEG format exactly when the lowercased
source path ends with jpg or jpeg and in PNG format otherwise, and the
i-th box of the input list is drawn with the colour at index i mod 4 of
the fixed four-element colour tuple. -/
theorem c9_draw_bounding_boxes (sourceImage : String)
    (boxes : List (String × BoundingBox)) (width height : Nat) :
    ((drawBoundingBoxes sourceImage boxes width height).savedFormat = "JPEG" ↔
        (strEndsWith (strToLower sourceImage) "jpg" ∨ strEndsWith (strToLower sourceImage) "jpeg")) ∧
      ((drawBoundingBoxes sourceImage boxes width height).savedFormat = "JPEG" ∨
        (drawBoundingBoxes sourceImage boxes width height).savedFormat = "PNG") ∧
      (∀ i r, (drawBoundingBoxes sourceImage boxes width height).renders[i]? = some r →
        r.color = colors.getD (i % 4) (0, 0, 0)) := by
  refine ⟨?_, ?_, ?_⟩
  · simp only [drawBoundingBoxes, imageFormatFor]
    by_cases h1 : (strEndsWith (strToLower sourceImage) "jpg" || strEndsWith (strToLower sourceImage) "jpeg") = true
    · simp only [h1, if_true]
      simp [Bool.or_eq_true] at h1
      simpa using h1
    · simp only [h1, if_false]
      simp [Bool.or_eq_true] at h1
      simp [h1]
  · simp only [drawBoundingBoxes, imageFormatFor]
    by_cases h1 : (strEndsWith (strToLower sourceImage) "jpg" || strEndsWith (strToLower sourceImage) "jpeg") = true
    · simp [h1]
    · simp [h1]
  · intro i r hr
    have := drawLoop_color_cycle width height boxes 0 (by norm_num) i r hr
    simpa using this

/-- C9 witness: one box on an uppercase-JPG path; the loop colours it with
the first entry of the colour tuple and the save format is JPEG. -/
theorem c9_draw_bounding_boxes_witness :
    ((drawBoundingBoxes "media/photo.JPG" [("face", ⟨1/2, 1/4, 1/8, 1/8⟩)] 100 100).renders[0]? =
        some ⟨(255, 255, 255),
          drawOpsForBox (255, 255, 255) ("face", ⟨1/2, 1/4, 1/8, 1/8⟩) 100 100⟩) ∧
      (⟨(255, 255, 255),
          drawOpsForBox (255, 255, 255) ("face", ⟨1/2, 1/4, 1/8, 1/8⟩) 100 100⟩ : BoxRender).color =
        colors.getD (0 % 4) (0, 0, 0) ∧
      (drawBoundingBoxes "media/photo.JPG" [("face", ⟨1/2, 1/4, 1/8, 1/8⟩)] 100 100).savedFormat = "JPEG" :=
  ⟨rfl,
   (c9_draw_bounding_boxes "media/photo.JPG" [("face", ⟨1/2, 1/4, 1/8, 1/8⟩)] 100 100).2.2 0 _ rfl,
   (c9_draw_bounding_boxes "media/photo.JPG" [("face", ⟨1/2, 1/4, 1/8, 1/8⟩)] 100 100).1.mpr
     (Or.inl (by rfl))⟩
